import Mathlib

/-
Verification of the deuce-client authentication manager
(`deuceclient/auth/auth.py`) against its natural-language specification.

The Python module is shallowly embedded below: the wire-format response
becomes explicit record types, the recursive "fuzzy" time comparator becomes
a recursive Boolean function over a list of field layers, `GetToken`'s
retry protocol becomes a recursive function over the retry budget with an
explicit stream of HTTP responses, and the request-body construction of
`Authentication.__init__` becomes a total function into an explicit JSON
value type with an error constructor standing for a raised
`AuthCredentialsErrors`.
-/

set_option autoImplicit false

namespace Deuce

/-! ## Data model: the identity-API response envelope (spec section 6) -/

/-- One endpoint entry of a service-catalog service. -/
structure Endpoint where
  region : String
  publicURL : String
  internalURL : String
  tenantId : String
  deriving DecidableEq

/-- One service-catalog entry: a service name and its endpoints, in order. -/
structure ServiceEntry where
  name : String
  endpoints : List Endpoint
  deriving DecidableEq

/-- The parsed `access` block of a successful authentication response:
`access.token.id`, `access.token.expires` and `access.serviceCatalog`. -/
structure Access where
  tokenId : String
  expires : String
  serviceCatalog : List ServiceEntry
  deriving DecidableEq

/-- The session's stored `self.auth_data`: either the initial empty dict
(also restored by the unrecognized-status branch of `GetToken`) or a parsed
response that carries an `access` block. -/
inductive AuthData
  | empty
  | withAccess (a : Access)
  deriving DecidableEq

/-! ## Time values and the fuzzy comparator (`IsExpired` internals) -/

/-- The six `datetime` fields read by the comparator, in significance
order. Python's `datetime` guarantees non-negative integers. -/
structure DateTime where
  year : Nat
  month : Nat
  day : Nat
  hour : Nat
  minute : Nat
  second : Nat
  deriving DecidableEq

/-- `time_layer_compare` from `IsExpired`: the chained layer dictionaries of
the Python source are embedded as the list of remaining
`(val_older, val_newer)` pairs. Equal values recurse into the next layer
(full equality at the last layer yields `true`); the first unequal pair
decides the result by `val_older > val_newer`. -/
def time_layer_compare : Int → Int → List (Int × Int) → Bool
  | val_older, val_newer, next_layer =>
    if val_older = val_newer then
      match next_layer with
      | (o, n) :: rest => time_layer_compare o n rest
      | [] => true
    else decide (val_older > val_newer)

/-- `time_fuzzy_compare` from `IsExpired`: year, month, day, hour, minute,
second layers, with `new_fuzz` added to the *newer* side's seconds field
only — no normalization of a sum past 59 into the minute field. -/
def time_fuzzy_compare (timeval_older timeval_newer : DateTime)
    (new_fuzz : Int) : Bool :=
  time_layer_compare (timeval_older.year : Int) (timeval_newer.year : Int)
    [((timeval_older.month : Int), (timeval_newer.month : Int)),
     ((timeval_older.day : Int), (timeval_newer.day : Int)),
     ((timeval_older.hour : Int), (timeval_newer.hour : Int)),
     ((timeval_older.minute : Int), (timeval_newer.minute : Int)),
     ((timeval_older.second : Int), (timeval_newer.second : Int) + new_fuzz)]

/-- Outcome of one `datetime.strptime` parsing cascade of
`self.AuthExpirationTime` against the two accepted formats. -/
inductive ParseOutcome
  | parsed (d : DateTime)
  | malformed
  deriving DecidableEq

/-- Result of `IsExpired`: a returned Boolean, or the raised
`AuthenticationError` for an unparseable timestamp string. -/
inductive ExpiredResult
  | value (b : Bool)
  | timeFormatError (msg : String)
  deriving DecidableEq

/-- The `AuthExpirationTime` property: `auth_data.access.token.expires`,
or `none` standing for the raised `AuthExpirationError` when no
authentication data is held. -/
def AuthExpirationTime : AuthData → Option String
  | AuthData.empty => none
  | AuthData.withAccess a => some a.expires

/-- `IsExpired(fuzz)`: a missing expiration time (`AuthExpirationError`) is
caught and reported as expired (`true`); a stored string is parsed by the
`strptime` cascade (passed in as a function, with `ParseOutcome.malformed`
standing for failure of both formats, which raises `AuthenticationError`);
a parsed time is handed to `time_fuzzy_compare` against `now`, a `true`
comparison meaning *not* expired. -/
def IsExpired (strptime : String → ParseOutcome) (auth_data : AuthData)
    (nowtime : DateTime) (fuzz : Int) : ExpiredResult :=
  match AuthExpirationTime auth_data with
  | none => ExpiredResult.value true
  | some s =>
    match strptime s with
    | ParseOutcome.parsed expirationtime =>
        if time_fuzzy_compare expirationtime nowtime fuzz then
          ExpiredResult.value false
        else
          ExpiredResult.value true
    | ParseOutcome.malformed =>
        ExpiredResult.timeFormatError ("Unknown time format: " ++ s)

/-! ## Specification-side descriptions of the comparison (spec section 4.3) -/

/-- The spec's six compared fields of a time value, most significant
first. -/
def sixFields (d : DateTime) : List Int :=
  [(d.year : Int), (d.month : Int), (d.day : Int), (d.hour : Int),
   (d.minute : Int), (d.second : Int)]

/-- The spec's six fields of "now" with the tolerance added, without
normalization, to the seconds field only. -/
def sixFieldsTol (d : DateTime) (tol : Int) : List Int :=
  [(d.year : Int), (d.month : Int), (d.day : Int), (d.hour : Int),
   (d.minute : Int), (d.second : Int) + tol]

/-- Strict lexicographic "greater than" on field lists, most-significant
field first, short-circuiting at the first unequal field; written from the
spec's words. -/
def lexStrictGreater : List Int → List Int → Bool
  | a :: as, b :: bs => if a = b then lexStrictGreater as bs else decide (a > b)
  | _, _ => false

/-! ## `GetToken`: token acquisition with bounded retry -/

/-- One HTTP response from the identity endpoint, as `GetToken` reads it:
status code, parsed JSON body, text and reason phrase. -/
structure Response where
  status_code : Nat
  json : AuthData
  text : String
  reason : String
  deriving DecidableEq

/-- How one `GetToken` call ends: a returned token id, the raised
`AuthenticationError` when retries are exhausted, the `LookupError` raised
while logging a status-200 body with no `access` block, the `return ''` of
the unrecognized-status branch, or the implicit `return None` that ends the
`status_code >= 400` branch. -/
inductive TokenResult
  | token (id : String)
  | authFailure (msg : String)
  | lookupFailure
  | emptyToken
  | noReturn
  deriving DecidableEq

/-- Observable outcome of one `GetToken` call: its result, the session's
`self.auth_data` afterwards, and how many POSTs it performed. -/
structure GTOutcome where
  result : TokenResult
  auth_data : AuthData
  sends : Nat
  deriving DecidableEq

/-- `GetToken(retry)`: the HTTP transport is modelled by `resp`, giving the
response to the `k`-th POST of the session. Status 200 stores the parsed
body and returns the token id; status 404 recurses with `retry - 1` after
raising `AuthenticationError` at `retry == 0`; any other status of at least
400 only logs and falls off the end of the function; any remaining status
resets `auth_data` to the empty dict and returns the empty string. -/
def GetToken (resp : Nat → Response) (auth_data : AuthData) :
    Nat → Nat → GTOutcome
  | retry, k =>
    let response := resp k
    if response.status_code = 200 then
      match response.json with
      | AuthData.withAccess a =>
        ⟨TokenResult.token a.tokenId, AuthData.withAccess a, 1⟩
      | AuthData.empty => ⟨TokenResult.lookupFailure, AuthData.empty, 1⟩
    else if response.status_code = 404 then
      match retry with
      | 0 =>
        ⟨TokenResult.authFailure "No more retries for authentication.",
         auth_data, 1⟩
      | retry' + 1 =>
        let o := GetToken resp auth_data retry' (k + 1)
        ⟨o.result, o.auth_data, o.sends + 1⟩
    else if 400 ≤ response.status_code then
      ⟨TokenResult.noReturn, auth_data, 1⟩
    else
      ⟨TokenResult.emptyToken, AuthData.empty, 1⟩

/-! ## `Authentication.__init__`: credential request-body construction -/

/-- A JSON value as built into `self.o`; objects keep Python's dict
insertion order. -/
inductive JVal
  | str (s : String)
  | obj (fields : List (String × JVal))

/-- Result of the request-body construction in `Authentication.__init__`:
the finished `self.o`, or the raised `AuthCredentialsErrors`. -/
inductive BuildResult
  | body (j : JVal)
  | credentialError (msg : String)

/-- Whether the construction raised `AuthCredentialsErrors`. -/
def BuildResult.isCredentialError : BuildResult → Bool
  | BuildResult.credentialError _ => true
  | _ => false

/-- The formatted `AuthCredentialsErrors` message for an unmatched
`(usertype, method)` pair. -/
def unknownUserTypeMsg (usertype method : String) : String :=
  "Unknown userid type (" ++ usertype ++ ") for authentication method ("
    ++ method ++ ")"

/-- The `self.o` construction of `Authentication.__init__`, branch for
branch: `self.o` starts as a dict with an empty `auth` dict; each
recognized method fills it according to the usertype, raising
`AuthCredentialsErrors` on an unmatched usertype; a method other than
`apikey`, `password`, `token` and `validate` matches no `elif` branch, so
`self.o` is left as the bare auth dict with no error raised. -/
def authenticationInit (userid credentials usertype method : String) :
    BuildResult :=
  if method = "apikey" then
    if usertype = "user" then
      BuildResult.body (JVal.obj [("auth", JVal.obj
        [("RAX-KSKEY:apiKeyCredentials", JVal.obj
          [("username", JVal.str userid),
           ("apiKey", JVal.str credentials)])])])
    else if usertype = "tenantid" then
      BuildResult.body (JVal.obj [("auth", JVal.obj
        [("tenantId", JVal.str userid),
         ("token", JVal.obj [("id", JVal.str credentials)])])])
    else
      BuildResult.credentialError (unknownUserTypeMsg usertype method)
  else if method = "password" then
    if usertype = "user" then
      BuildResult.body (JVal.obj [("auth", JVal.obj
        [("passwordCredentials", JVal.obj
          [("username", JVal.str userid),
           ("password", JVal.str credentials)])])])
    else if usertype = "tenantid" then
      BuildResult.body (JVal.obj [("auth", JVal.obj
        [("tenantId", JVal.str userid),
         ("token", JVal.obj [("id", JVal.str credentials)])])])
    else
      BuildResult.credentialError (unknownUserTypeMsg usertype method)
  else if method = "token" then
    if usertype = "tenantid" then
      BuildResult.body (JVal.obj [("auth", JVal.obj
        [("tenantId", JVal.str userid),
         ("token", JVal.obj [("id", JVal.str credentials)])])])
    else if usertype = "tenantname" then
      BuildResult.body (JVal.obj [("auth", JVal.obj
        [("tenantName", JVal.str userid),
         ("token", JVal.obj [("id", JVal.str credentials)])])])
    else
      BuildResult.credentialError (unknownUserTypeMsg usertype method)
  else if method = "validate" then
    BuildResult.body (JVal.obj [("auth", JVal.obj
      [("token", JVal.obj [("id", JVal.str credentials)])])])
  else
    BuildResult.body (JVal.obj [("auth", JVal.obj [])])

/-- The nine valid documented (userType, method) combinations of spec
section 3, written from the spec's words. -/
def isValidPair (usertype method : String) : Bool :=
  decide ((method = "apikey" ∧ (usertype = "user" ∨ usertype = "tenantid"))
    ∨ (method = "password" ∧ (usertype = "user" ∨ usertype = "tenantid"))
    ∨ (method = "token" ∧ (usertype = "tenantid" ∨ usertype = "tenantname"))
    ∨ (method = "validate" ∧ (usertype = "user" ∨ usertype = "tenantid"
        ∨ usertype = "tenantname")))

/-! ## `MossoId`: mosso-style account id from the service catalog -/

/-- Result of the `MossoId` property: a returned value (possibly `None`),
or the `AuthenticationError` raised when the expected keys are absent. -/
inductive MossoResult
  | value (m : Option String)
  | missingData (msg : String)
  deriving DecidableEq

/-- Inner endpoint loop of `MossoId`: the `tenantId` of the first endpoint
whose `tenantId` has non-zero length, if any — the `break` exits after the
first hit. -/
def firstNonEmptyTenant : List Endpoint → Option String
  | [] => none
  | e :: rest =>
    if e.tenantId.length ≠ 0 then some e.tenantId
    else firstNonEmptyTenant rest

/-- Outer catalog loop of `MossoId`: `mossoid` starts as `None`; for each
entry named cloudFiles, the inner loop overwrites `mossoid` with that
entry's first non-empty tenant id if there is one. The `break` leaves only
the inner loop, so the outer loop keeps scanning and a later cloudFiles
entry overrides an earlier result. -/
def mossoLoop : List ServiceEntry → Option String → Option String
  | [], mossoid => mossoid
  | s :: rest, mossoid =>
    if s.name = "cloudFiles" then
      match firstNonEmptyTenant s.endpoints with
      | some t => mossoLoop rest (some t)
      | none => mossoLoop rest mossoid
    else mossoLoop rest mossoid

/-- The `MossoId` property: raises `AuthenticationError` when no `access`
data is held (the `LookupError` branch), else returns the catalog-scan
result. -/
def MossoId : AuthData → MossoResult
  | AuthData.empty =>
    MossoResult.missingData "Unable to retrieve MossoID. Did you authenticate?"
  | AuthData.withAccess a =>
    MossoResult.value (mossoLoop a.serviceCatalog none)

/-- The claim's reading of `MossoId`, written from its words: the tenant id
of the first endpoint with a non-empty tenant id within the *first* catalog
entry whose service name is cloudFiles, first match winning. -/
def specMossoFirstEntry (catalog : List ServiceEntry) : Option String :=
  match catalog.find? (fun s => s.name == "cloudFiles") with
  | some s => firstNonEmptyTenant s.endpoints
  | none => none

/-- The amended description of `MossoId`: scan the whole catalog in order,
and let each cloudFiles entry that contains a non-empty tenant id override
the result, so the *last* such entry wins. -/
def specMossoLastEntry (catalog : List ServiceEntry) : Option String :=
  catalog.foldl
    (fun acc s =>
      if s.name = "cloudFiles" then
        match firstNonEmptyTenant s.endpoints with
        | some t => some t
        | none => acc
      else acc) none

end Deuce

namespace Deuce

/-! ## Theorems for claims C1, C2 and C7 -/

lemma time_layer_compare_true_iff (layers : List (Int × Int)) :
    ∀ o n : Int,
      time_layer_compare o n layers = true ↔
        (lexStrictGreater (o :: layers.map Prod.fst)
            (n :: layers.map Prod.snd) = true
          ∨ o :: layers.map Prod.fst = n :: layers.map Prod.snd) := by
  induction layers with
  | nil =>
    intro o n
    by_cases h : o = n <;> simp [time_layer_compare, lexStrictGreater, h]
  | cons p rest ih =>
    intro o n
    obtain ⟨o2, n2⟩ := p
    by_cases h : o = n
    · subst h
      simp [time_layer_compare, lexStrictGreater, ih o2 n2]
    · simp [time_layer_compare, lexStrictGreater, h]

lemma time_fuzzy_compare_true_iff (e nowtime : DateTime) (fuzz : Int) :
    time_fuzzy_compare e nowtime fuzz = true ↔
      (lexStrictGreater (sixFields e) (sixFieldsTol nowtime fuzz) = true
        ∨ sixFields e = sixFieldsTol nowtime fuzz) := by
  simpa [time_fuzzy_compare, sixFields, sixFieldsTol] using
    time_layer_compare_true_iff
      [((e.month : Int), (nowtime.month : Int)),
       ((e.day : Int), (nowtime.day : Int)),
       ((e.hour : Int), (nowtime.hour : Int)),
       ((e.minute : Int), (nowtime.minute : Int)),
       ((e.second : Int), (nowtime.second : Int) + fuzz)]
      (e.year : Int) (nowtime.year : Int)

/-- Claim C1: for every stored expiration timestamp that parses, every
"now" and every tolerance, `IsExpired` compares the six fields of
`expiresAt` against the six fields of now with the tolerance added,
unnormalized, to the seconds field only, lexicographically most-significant
field first, and returns `false` (not expired) iff `expiresAt` is strictly
greater under that order or all six fields are equal. -/
theorem claim1_isExpired_lexicographic (strptime : String → ParseOutcome)
    (a : Access) (nowtime : DateTime) (fuzz : Int) (e : DateTime)
    (hp : strptime a.expires = ParseOutcome.parsed e) :
    IsExpired strptime (AuthData.withAccess a) nowtime fuzz
        = ExpiredResult.value false ↔
      (lexStrictGreater (sixFields e) (sixFieldsTol nowtime fuzz) = true
        ∨ sixFields e = sixFieldsTol nowtime fuzz) := by
  have htfc := time_fuzzy_compare_true_iff e nowtime fuzz
  simp only [IsExpired, AuthExpirationTime, hp]
  cases hb : time_fuzzy_compare e nowtime fuzz with
  | true =>
    simp only [hb, true_iff] at htfc
    simp [htfc]
  | false =>
    rw [hb] at htfc
    simp only [Bool.false_eq_true, false_iff] at htfc
    simpa using htfc

/-- Witness for C1 at a concrete input: the timestamp string parses to
2024-01-01T00:00:05, now is 2024-01-01T00:00:03, tolerance 0. -/
theorem claim1_isExpired_lexicographic_witness :
    ((fun _ : String => ParseOutcome.parsed ⟨2024, 1, 1, 0, 0, 5⟩)
        (Access.expires ⟨"tok", "2024-01-01T00:00:05.000Z", []⟩)
      = ParseOutcome.parsed ⟨2024, 1, 1, 0, 0, 5⟩)
    ∧ (IsExpired (fun _ : String => ParseOutcome.parsed ⟨2024, 1, 1, 0, 0, 5⟩)
          (AuthData.withAccess ⟨"tok", "2024-01-01T00:00:05.000Z", []⟩)
          ⟨2024, 1, 1, 0, 0, 3⟩ 0 = ExpiredResult.value false ↔
        (lexStrictGreater (sixFields ⟨2024, 1, 1, 0, 0, 5⟩)
            (sixFieldsTol ⟨2024, 1, 1, 0, 0, 3⟩ 0) = true
          ∨ sixFields ⟨2024, 1, 1, 0, 0, 5⟩
              = sixFieldsTol ⟨2024, 1, 1, 0, 0, 3⟩ 0)) :=
  ⟨rfl,
   claim1_isExpired_lexicographic
     (fun _ : String => ParseOutcome.parsed ⟨2024, 1, 1, 0, 0, 5⟩)
     ⟨"tok", "2024-01-01T00:00:05.000Z", []⟩
     ⟨2024, 1, 1, 0, 0, 3⟩ 0 ⟨2024, 1, 1, 0, 0, 5⟩ rfl⟩

/-- Counterexample to claim C2 as stated: with expiration time
2024-01-01T00:00:05 and now 2024-01-01T00:00:03, it is *not* the case that
`isExpired(0)` is false and `isExpired(2)` is true — with tolerance 2 all
six compared fields are equal, the comparator's full-equality branch
returns `true`, and `IsExpired` therefore reports *not* expired. -/
theorem claim2_counterexample :
    ¬ (IsExpired (fun _ : String => ParseOutcome.parsed ⟨2024, 1, 1, 0, 0, 5⟩)
          (AuthData.withAccess ⟨"tok", "2024-01-01T00:00:05.000Z", []⟩)
          ⟨2024, 1, 1, 0, 0, 3⟩ 0 = ExpiredResult.value false
        ∧ IsExpired (fun _ : String => ParseOutcome.parsed ⟨2024, 1, 1, 0, 0, 5⟩)
          (AuthData.withAccess ⟨"tok", "2024-01-01T00:00:05.000Z", []⟩)
          ⟨2024, 1, 1, 0, 0, 3⟩ 2 = ExpiredResult.value true) := by
  decide

/-- Claim C2 (amended): with stored expiration 2024-01-01T00:00:05Z and now
2024-01-01T00:00:03Z, `isExpired(0)` returns false and `isExpired(2)` also
returns false — when the tolerance makes all six compared fields equal, the
token is reported *not* expired. -/
theorem claim2_amended_equal_is_not_expired :
    IsExpired (fun _ : String => ParseOutcome.parsed ⟨2024, 1, 1, 0, 0, 5⟩)
        (AuthData.withAccess ⟨"tok", "2024-01-01T00:00:05.000Z", []⟩)
        ⟨2024, 1, 1, 0, 0, 3⟩ 0 = ExpiredResult.value false
    ∧ IsExpired (fun _ : String => ParseOutcome.parsed ⟨2024, 1, 1, 0, 0, 5⟩)
        (AuthData.withAccess ⟨"tok", "2024-01-01T00:00:05.000Z", []⟩)
        ⟨2024, 1, 1, 0, 0, 3⟩ 2 = ExpiredResult.value false := by
  exact ⟨by decide, by decide⟩

/-- Claim C7: for every tolerance (and every parser and every current
time), when no authentication response is held `IsExpired` returns `true`
(expired) rather than raising: the `AuthExpirationError` from the
`AuthExpirationTime` property is caught inside `IsExpired`. -/
theorem claim7_expired_when_no_response (strptime : String → ParseOutcome)
    (nowtime : DateTime) (fuzz : Int) :
    IsExpired strptime AuthData.empty nowtime fuzz
      = ExpiredResult.value true := rfl

/-! ## Theorems for claims C3, C4 and C8 -/

lemma GetToken_all_404 (resp : Nat → Response) (auth : AuthData)
    (h404 : ∀ j, (resp j).status_code = 404) :
    ∀ n k : Nat,
      GetToken resp auth n k =
        ⟨TokenResult.authFailure "No more retries for authentication.",
         auth, n + 1⟩ := by
  intro n
  induction n with
  | zero =>
    intro k
    rw [GetToken]
    simp [h404 k]
  | succ m ih =>
    intro k
    rw [GetToken]
    simp [h404 k, ih (k + 1)]

/-- Claim C3: for every retry budget `n`, if every POST to the identity
endpoint returns HTTP 404, `GetToken n` performs exactly `n + 1` sends
(the initial attempt plus `n` retries), leaves the stored response
untouched, and fails with the `AuthenticationError` that reports that no
retries remain. -/
theorem claim3_retries_exhausted (resp : Nat → Response) (auth : AuthData)
    (n : Nat) (h404 : ∀ j, (resp j).status_code = 404) :
    GetToken resp auth n 0 =
      ⟨TokenResult.authFailure "No more retries for authentication.",
       auth, n + 1⟩ :=
  GetToken_all_404 resp auth h404 n 0

/-- Witness for C3 at a concrete input: a transport that always answers
404 and a retry budget of 3 produce 4 sends and the retries-exhausted
failure. -/
theorem claim3_retries_exhausted_witness :
    (∀ j : Nat,
      ((fun _ : Nat => Response.mk 404 AuthData.empty "" "Not Found") j).status_code
        = 404)
    ∧ GetToken (fun _ : Nat => Response.mk 404 AuthData.empty "" "Not Found")
        AuthData.empty 3 0 =
      ⟨TokenResult.authFailure "No more retries for authentication.",
       AuthData.empty, 4⟩ :=
  ⟨fun _ => rfl,
   claim3_retries_exhausted
     (fun _ : Nat => Response.mk 404 AuthData.empty "" "Not Found")
     AuthData.empty 3 (fun _ => rfl)⟩

/-- Claim C4, actual code behavior: on a status of at least 400 other than
404, `GetToken` performs a single send and does not retry — but it does
*not* raise an `AuthenticationError`: after logging, control falls off the
end of the function and the caller receives `None`
(`TokenResult.noReturn`), unlike the analogous branch of `AllCredentials`,
which raises. -/
theorem claim4_client_error_falls_through (resp : Nat → Response)
    (auth : AuthData) (retry k : Nat)
    (h400 : 400 ≤ (resp k).status_code)
    (h404 : (resp k).status_code ≠ 404) :
    GetToken resp auth retry k = ⟨TokenResult.noReturn, auth, 1⟩ := by
  have h200 : ¬ (resp k).status_code = 200 := by omega
  cases retry <;> (rw [GetToken]; simp [h200, h404, h400])

/-- Witness for C4 at the failing input: a single response with status 500
yields one send, an unchanged stored response, and no raised failure. -/
theorem claim4_client_error_falls_through_witness :
    (400 ≤ ((fun _ : Nat =>
        Response.mk 500 AuthData.empty "err" "Internal Server Error") 0).status_code)
    ∧ (((fun _ : Nat =>
        Response.mk 500 AuthData.empty "err" "Internal Server Error") 0).status_code
        ≠ 404)
    ∧ GetToken (fun _ : Nat =>
        Response.mk 500 AuthData.empty "err" "Internal Server Error")
        AuthData.empty 5 0 =
      ⟨TokenResult.noReturn, AuthData.empty, 1⟩ :=
  ⟨by decide, by decide,
   claim4_client_error_falls_through
     (fun _ : Nat => Response.mk 500 AuthData.empty "err" "Internal Server Error")
     AuthData.empty 5 0 (by decide) (by decide)⟩

/-- Counterexample to claim C8 as stated: the previously held response is
*not* retained on every non-200 outcome — a status-201 reply reaches the
unrecognized-status branch, which resets `self.auth_data` to the empty
dict. -/
theorem claim8_counterexample :
    (GetToken (fun _ : Nat => Response.mk 201 AuthData.empty "" "Created")
        (AuthData.withAccess ⟨"tok", "2024-01-01T00:00:05.000Z", []⟩)
        5 0).auth_data
      ≠ AuthData.withAccess ⟨"tok", "2024-01-01T00:00:05.000Z", []⟩ := by
  decide

/-- Claim C8 (amended): the stored response after a `GetToken` call is
determined by the status of the last response processed: replaced wholesale
by the parsed body on 200, retained unchanged on 404 (retries exhausted)
and on any other status of at least 400, and reset to the empty dict on any
remaining status; it is never partially updated. -/
theorem claim8_amended_frame (resp : Nat → Response) (auth : AuthData) :
    ∀ retry k : Nat,
      (GetToken resp auth retry k).auth_data =
        (if (resp (k + (GetToken resp auth retry k).sends - 1)).status_code
             = 200 then
           (resp (k + (GetToken resp auth retry k).sends - 1)).json
         else if (resp (k + (GetToken resp auth retry k).sends - 1)).status_code
             = 404 then
           auth
         else if 400 ≤ (resp (k + (GetToken resp auth retry k).sends - 1)).status_code then
           auth
         else AuthData.empty) := by
  intro retry
  induction retry with
  | zero =>
    intro k
    rw [GetToken]
    by_cases h200 : (resp k).status_code = 200
    · cases hj : (resp k).json <;> simp [h200, hj]
    · by_cases h404 : (resp k).status_code = 404
      · simp [h200, h404]
      · by_cases h400 : 400 ≤ (resp k).status_code
        · simp [h200, h404, h400]
        · simp [h200, h404, h400]
  | succ m ih =>
    intro k
    by_cases h200 : (resp k).status_code = 200
    · rw [GetToken]
      cases hj : (resp k).json <;> simp [h200, hj]
    · by_cases h404 : (resp k).status_code = 404
      · have hstep : GetToken resp auth (m + 1) k =
            ⟨(GetToken resp auth m (k + 1)).result,
             (GetToken resp auth m (k + 1)).auth_data,
             (GetToken resp auth m (k + 1)).sends + 1⟩ := by
          rw [GetToken]
          simp [h200, h404]
        rw [hstep]
        have h := ih (k + 1)
        have hidx : k + 1 + (GetToken resp auth m (k + 1)).sends - 1
            = k + ((GetToken resp auth m (k + 1)).sends + 1) - 1 := by omega
        rw [hidx] at h
        simpa using h
      · by_cases h400 : 400 ≤ (resp k).status_code
        · rw [GetToken]
          simp [h200, h404, h400]
        · rw [GetToken]
          simp [h200, h404, h400]

/-! ## Theorems for claims C5 and C6 -/

/-- Counterexample to claim C5 as stated: the pair (user, bogus) is not
among the nine valid combinations, yet construction raises no
`AuthCredentialsErrors` — an unrecognized method value matches no branch of
the `if`/`elif` chain and leaves the bare auth dict. -/
theorem claim5_counterexample :
    isValidPair "user" "bogus" = false
    ∧ (authenticationInit "u" "c" "user" "bogus").isCredentialError = false
    ∧ authenticationInit "u" "c" "user" "bogus"
        = BuildResult.body (JVal.obj [("auth", JVal.obj [])]) :=
  ⟨rfl, rfl, rfl⟩

/-- Claim C5 (amended): under the recognized methods apikey, password and
token, every unmatched userType falls into an explicit error branch that
raises `AuthCredentialsErrors` naming the invalid combination; the validate
method accepts any userType, and an unrecognized method value raises
nothing, leaving the bare auth dict. -/
theorem claim5_amended_unmatched_usertype
    (userid credentials usertype method : String)
    (hm : method = "apikey" ∨ method = "password" ∨ method = "token")
    (hv : isValidPair usertype method = false) :
    authenticationInit userid credentials usertype method
      = BuildResult.credentialError (unknownUserTypeMsg usertype method) := by
  rcases hm with hm | hm | hm <;> subst hm <;>
    simp [isValidPair] at hv <;>
    simp [authenticationInit, hv.1, hv.2]

/-- Witness for the amended C5 at a concrete input: (tenantname, apikey)
is an unmatched pair under a recognized method and raises
`AuthCredentialsErrors`. -/
theorem claim5_amended_unmatched_usertype_witness :
    (("apikey" : String) = "apikey" ∨ ("apikey" : String) = "password"
      ∨ ("apikey" : String) = "token")
    ∧ isValidPair "tenantname" "apikey" = false
    ∧ authenticationInit "u" "c" "tenantname" "apikey"
        = BuildResult.credentialError (unknownUserTypeMsg "tenantname" "apikey") :=
  ⟨Or.inl rfl, rfl,
   claim5_amended_unmatched_usertype "u" "c" "tenantname" "apikey"
     (Or.inl rfl) rfl⟩

/-- Claim C6: for every userid and credential and each of the nine valid
(method, userType) pairs, the constructed body has exactly the documented
JSON shape: apikey+user nests the vendor api-key block with username and
apiKey; apikey or password with tenantid yields tenantId plus a token id;
password+user yields passwordCredentials with username and password;
token+tenantid yields tenantId plus a token id; token+tenantname yields
tenantName plus a token id; validate yields just a token id, for any of the
three userTypes. -/
theorem claim6_valid_pair_shapes (u c : String) :
    authenticationInit u c "user" "apikey"
      = BuildResult.body (JVal.obj [("auth", JVal.obj
          [("RAX-KSKEY:apiKeyCredentials", JVal.obj
            [("username", JVal.str u), ("apiKey", JVal.str c)])])])
    ∧ authenticationInit u c "tenantid" "apikey"
      = BuildResult.body (JVal.obj [("auth", JVal.obj
          [("tenantId", JVal.str u),
           ("token", JVal.obj [("id", JVal.str c)])])])
    ∧ authenticationInit u c "user" "password"
      = BuildResult.body (JVal.obj [("auth", JVal.obj
          [("passwordCredentials", JVal.obj
            [("username", JVal.str u), ("password", JVal.str c)])])])
    ∧ authenticationInit u c "tenantid" "password"
      = BuildResult.body (JVal.obj [("auth", JVal.obj
          [("tenantId", JVal.str u),
           ("token", JVal.obj [("id", JVal.str c)])])])
    ∧ authenticationInit u c "tenantid" "token"
      = BuildResult.body (JVal.obj [("auth", JVal.obj
          [("tenantId", JVal.str u),
           ("token", JVal.obj [("id", JVal.str c)])])])
    ∧ authenticationInit u c "tenantname" "token"
      = BuildResult.body (JVal.obj [("auth", JVal.obj
          [("tenantName", JVal.str u),
           ("token", JVal.obj [("id", JVal.str c)])])])
    ∧ authenticationInit u c "user" "validate"
      = BuildResult.body (JVal.obj [("auth", JVal.obj
          [("token", JVal.obj [("id", JVal.str c)])])])
    ∧ authenticationInit u c "tenantid" "validate"
      = BuildResult.body (JVal.obj [("auth", JVal.obj
          [("token", JVal.obj [("id", JVal.str c)])])])
    ∧ authenticationInit u c "tenantname" "validate"
      = BuildResult.body (JVal.obj [("auth", JVal.obj
          [("token", JVal.obj [("id", JVal.str c)])])]) :=
  ⟨rfl, rfl, rfl, rfl, rfl, rfl, rfl, rfl, rfl⟩

/-! ## Theorems for claims C9 and C10 -/

/-- Counterexample to claim C9 as stated: with two cloudFiles catalog
entries whose first endpoints carry tenant ids 111 and 222 respectively,
the code returns 222 from the *second* entry, not 111 from the first as
the claim's first-entry-wins reading demands. -/
theorem claim9_counterexample :
    MossoId (AuthData.withAccess
        ⟨"tok", "2024-01-01T00:00:05.000Z",
         [⟨"cloudFiles", [⟨"DFW", "pu", "iu", "111"⟩]⟩,
          ⟨"cloudFiles", [⟨"ORD", "pu2", "iu2", "222"⟩]⟩]⟩)
      = MossoResult.value (some "222")
    ∧ specMossoFirstEntry
        [⟨"cloudFiles", [⟨"DFW", "pu", "iu", "111"⟩]⟩,
         ⟨"cloudFiles", [⟨"ORD", "pu2", "iu2", "222"⟩]⟩]
      = some "111"
    ∧ MossoId (AuthData.withAccess
        ⟨"tok", "2024-01-01T00:00:05.000Z",
         [⟨"cloudFiles", [⟨"DFW", "pu", "iu", "111"⟩]⟩,
          ⟨"cloudFiles", [⟨"ORD", "pu2", "iu2", "222"⟩]⟩]⟩)
      ≠ MossoResult.value (specMossoFirstEntry
          [⟨"cloudFiles", [⟨"DFW", "pu", "iu", "111"⟩]⟩,
           ⟨"cloudFiles", [⟨"ORD", "pu2", "iu2", "222"⟩]⟩]) := by
  refine ⟨rfl, rfl, ?_⟩
  decide

lemma mossoLoop_eq_foldl (catalog : List ServiceEntry) :
    ∀ acc : Option String,
      mossoLoop catalog acc =
        catalog.foldl
          (fun a s =>
            if s.name = "cloudFiles" then
              match firstNonEmptyTenant s.endpoints with
              | some t => some t
              | none => a
            else a) acc := by
  induction catalog with
  | nil => intro acc; rfl
  | cons s rest ih =>
    intro acc
    by_cases h : s.name = "cloudFiles"
    · cases ht : firstNonEmptyTenant s.endpoints <;>
        simp [mossoLoop, h, ht, ih]
    · simp [mossoLoop, h, ih]

/-- Claim C9 (amended): for every stored service catalog, `MossoId` scans
the whole catalog in order and returns the first non-empty tenant id of the
*last* cloudFiles entry that contains one (later cloudFiles entries
override earlier results; within one entry the first non-empty endpoint
still wins), or `None` when no cloudFiles entry has a non-empty tenant
id. -/
theorem claim9_amended_last_entry_wins (a : Access) :
    MossoId (AuthData.withAccess a)
      = MossoResult.value (specMossoLastEntry a.serviceCatalog) := by
  simp [MossoId, specMossoLastEntry, mossoLoop_eq_foldl]

lemma firstNonEmptyTenant_of_all_empty (eps : List Endpoint)
    (h : ∀ e ∈ eps, e.tenantId = "") :
    firstNonEmptyTenant eps = none := by
  induction eps with
  | nil => rfl
  | cons e rest ih =>
    have he := h e (List.mem_cons_self e rest)
    simp [firstNonEmptyTenant, he]
    exact ih (fun x hx => h x (List.mem_cons_of_mem e hx))

lemma mossoLoop_none_of_all_empty (catalog : List ServiceEntry)
    (h : ∀ s ∈ catalog, s.name = "cloudFiles" →
      ∀ e ∈ s.endpoints, e.tenantId = "") :
    mossoLoop catalog none = none := by
  induction catalog with
  | nil => rfl
  | cons s rest ih =>
    have hrest : ∀ x ∈ rest, x.name = "cloudFiles" →
        ∀ e ∈ x.endpoints, e.tenantId = "" :=
      fun x hx => h x (List.mem_cons_of_mem s hx)
    by_cases hn : s.name = "cloudFiles"
    · have hf := firstNonEmptyTenant_of_all_empty s.endpoints
        (h s (List.mem_cons_self s rest) hn)
      simp [mossoLoop, hn, hf, ih hrest]
    · simp [mossoLoop, hn, ih hrest]

/-- Claim C10: when an `access` block is held but every catalog entry named
cloudFiles (possibly none at all) has only endpoints with an empty tenant
id, `MossoId` returns `None` rather than raising any error. -/
theorem claim10_none_without_raising (a : Access)
    (h : ∀ s ∈ a.serviceCatalog, s.name = "cloudFiles" →
      ∀ e ∈ s.endpoints, e.tenantId = "") :
    MossoId (AuthData.withAccess a) = MossoResult.value none := by
  simp [MossoId, mossoLoop_none_of_all_empty a.serviceCatalog h]

/-- Witness for C10 at a concrete input: a catalog whose single cloudFiles
entry has only an empty tenant id, next to a non-cloudFiles entry with a
non-empty one, yields `None` without raising. -/
theorem claim10_none_without_raising_witness :
    (∀ s ∈ ([⟨"cloudFiles", [⟨"DFW", "pu", "iu", ""⟩]⟩,
             ⟨"cloudServers", [⟨"ORD", "p", "i", "999"⟩]⟩] :
          List ServiceEntry),
        s.name = "cloudFiles" → ∀ e ∈ s.endpoints, e.tenantId = "")
    ∧ MossoId (AuthData.withAccess
        ⟨"tok", "2024-01-01T00:00:05.000Z",
         [⟨"cloudFiles", [⟨"DFW", "pu", "iu", ""⟩]⟩,
          ⟨"cloudServers", [⟨"ORD", "p", "i", "999"⟩]⟩]⟩)
      = MossoResult.value none :=
  ⟨by decide,
   claim10_none_without_raising
     ⟨"tok", "2024-01-01T00:00:05.000Z",
      [⟨"cloudFiles", [⟨"DFW", "pu", "iu", ""⟩]⟩,
       ⟨"cloudServers", [⟨"ORD", "p", "i", "999"⟩]⟩]⟩
     (by decide)⟩

end Deuce
